import Mathlib

/-!
Shallow embedding of the service worker `sw.js` of the pwa-Task repository:
the cache stores, the request classifier, the per-class fetch handlers, and
the install / activate / background-sync event handlers, together with proofs
of behavioural properties about them.
-/

namespace Sw

/-- A response snapshot: status, status text, headers and body — the
`Response` values the worker produces, returns and caches. -/
structure Response where
  status : Nat
  statusText : String
  headers : List (String × String)
  body : String
deriving DecidableEq

/-- The platform's `Response.ok`: the status is in the range 200..299. -/
def Response.ok (r : Response) : Bool :=
  decide (200 ≤ r.status ∧ r.status < 300)

/-- An intercepted request, restricted to the fields `sw.js` inspects:
`request.url`, `url.protocol`, `url.hostname`, `url.origin`, `request.mode`
and `request.headers.get('accept')`. -/
structure Request where
  url : String
  protocol : String
  hostname : String
  origin : String
  mode : String
  accept : Option String
deriving DecidableEq

/-- Line 1 of `sw.js`. -/
def CACHE_NAME : String := "zaq_myapp_v5"

/-- Line 2 of `sw.js`. -/
def API_CACHE_NAME : String := "zaq_api_cache_v3"

/-- Lines 5-18 of `sw.js`: the fixed asset URL list precached at install. -/
def urlsToCache : List String :=
  ["./", "./index.html", "./about.html", "./contact.html", "./main.css",
   "./manifest.json", "./sw.js", "./app.js", "./images/icons/favicon.ico",
   "./images/icons/favicon.svg", "./images/icons/site.webmanifest",
   "./offline.html"]

/-- Lines 21-23 of `sw.js`: the fixed API endpoint list. -/
def API_ENDPOINTS : List String :=
  ["https://jsonplaceholder.typicode.com/posts?_limit=5"]

/-- A named cache: an association list from request URL to stored snapshot.
`put` prepends, so the most recent entry for a key shadows older ones. -/
abbrev Cache := List (String × Response)

/-- The cache registry (`caches`): the named stores, in creation order. -/
abbrev CacheStorage := List (String × Cache)

/-- Exact-match lookup in one cache. -/
def cacheLookup : Cache → String → Option Response
  | [], _ => none
  | (k, v) :: rest, key => if key = k then some v else cacheLookup rest key

/-- `cache.put(key, v)`: overwrite the entry for `key`. -/
def cacheInsert (c : Cache) (k : String) (v : Response) : Cache :=
  (k, v) :: c

/-- `caches.match(key)`: search the stores in order, first hit wins. -/
def cachesMatch : CacheStorage → String → Option Response
  | [], _ => none
  | (_, c) :: rest, key =>
    match cacheLookup c key with
    | some v => some v
    | none => cachesMatch rest key

/-- The read side of `caches.open(name)`: the named store's contents, `[]`
when the store does not exist yet. -/
def cachesOpen : CacheStorage → String → Cache
  | [], _ => []
  | (n, c) :: rest, name => if name = n then c else cachesOpen rest name

/-- `caches.open(name)` followed by `cache.put(key, v)`: update the named
store, creating it (at the end of the registry) when absent. -/
def cachesPut : CacheStorage → String → String → Response → CacheStorage
  | [], name, k, v => [(name, cacheInsert [] k v)]
  | (n, c) :: rest, name, k, v =>
    if name = n then (n, cacheInsert c k v) :: rest
    else (n, c) :: cachesPut rest name k v

/-- `caches.delete(name)`: remove every store with that name. -/
def cachesDelete (cs : CacheStorage) (name : String) : CacheStorage :=
  cs.filter (fun p => p.1 != name)

/-- The network transport: fetching a request URL either yields a response or
the fetch rejects. -/
abbrev Network := String → Except Unit Response

/-- What one strategy invocation produces: the response the request resolves
to (`none` models resolving to `undefined`), the cache registry afterwards,
and the URLs fetched from the network, in order. -/
structure HandlerResult where
  response : Option Response
  caches : CacheStorage
  fetches : List String
deriving DecidableEq

/-- Lines 133-135 of `sw.js`: the synthesized
`new Response(JSON.stringify([]), {headers: {'Content-Type': 'application/json'}})`
(`new Response` defaults to status 200 and empty status text). -/
def emptyJsonResponse : Response :=
  ⟨200, "", [("Content-Type", "application/json")], "[]"⟩

/-- Lines 203-206 of `sw.js`: the synthesized 503 terminal response of
`handleAppRequest`. -/
def offlineResponse503 : Response :=
  ⟨503, "Service Unavailable", [], "Offline - Service worker failed to fetch content"⟩

/-- The accept-hint test of lines 87 and 198:
`request.headers.get('accept') && request.headers.get('accept').includes('text/html')`. -/
def acceptIncludesHtml (req : Request) : Bool :=
  match req.accept with
  | some a => decide ("text/html".toList <:+: a.toList)
  | none => false

/-- Lines 124-135 of `handleApiRequest`: after a network failure or a non-ok
response, try the cache; with no cached entry, return the empty JSON array. -/
def apiFallback (cs : CacheStorage) (req : Request) (fetches : List String) : HandlerResult :=
  match cachesMatch cs req.url with
  | some cached => ⟨some cached, cs, fetches⟩
  | none => ⟨some emptyJsonResponse, cs, fetches⟩

/-- `handleApiRequest` (lines 104-136): network-first; an ok response is
cloned into the API store and returned; otherwise fall back to the cache, and
with no cached entry to the synthesized empty JSON array. -/
def handleApiRequest (net : Network) (cs : CacheStorage) (req : Request) : HandlerResult :=
  match net req.url with
  | .ok networkResponse =>
    if networkResponse.ok then
      ⟨some networkResponse, cachesPut cs API_CACHE_NAME req.url networkResponse, [req.url]⟩
    else
      apiFallback cs req [req.url]
  | .error _ => apiFallback cs req [req.url]

/-- Lines 163-170 of `handleNavigationRequest`: the offline-page fallback,
then the index page as last resort (the final `caches.match('./index.html')`
may itself resolve to `undefined`). -/
def navigationFallback (cs : CacheStorage) (fetches : List String) : HandlerResult :=
  match cachesMatch cs "./offline.html" with
  | some fallback => ⟨some fallback, cs, fetches⟩
  | none => ⟨cachesMatch cs "./index.html", cs, fetches⟩

/-- `handleNavigationRequest` (lines 138-171): cache-first; on a miss fetch,
cache an ok response in the asset store and return it; on failure or a non-ok
response fall back to the offline page, then the index page. -/
def handleNavigationRequest (net : Network) (cs : CacheStorage) (req : Request) : HandlerResult :=
  match cachesMatch cs req.url with
  | some cachedPage => ⟨some cachedPage, cs, []⟩
  | none =>
    match net req.url with
    | .ok networkResponse =>
      if networkResponse.ok then
        ⟨some networkResponse, cachesPut cs CACHE_NAME req.url networkResponse, [req.url]⟩
      else
        navigationFallback cs [req.url]
    | .error _ => navigationFallback cs [req.url]

/-- Lines 197-206 of `handleAppRequest`: the terminal fallbacks. On the HTML
branch line 200 is `caches.match('./offline.html') || caches.match('./index.html')`;
`caches.match` returns a Promise object, which is always truthy, so the `||`
always takes its first operand and the awaited value is whatever
`caches.match('./offline.html')` resolves to — possibly `undefined`. The
second operand is never evaluated. -/
def appFallback (cs : CacheStorage) (req : Request) (fetches : List String) : HandlerResult :=
  if acceptIncludesHtml req then
    ⟨cachesMatch cs "./offline.html", cs, fetches⟩
  else
    ⟨some offlineResponse503, cs, fetches⟩

/-- `handleAppRequest` (lines 173-207): cache-first; on a miss fetch, cache
an ok response in the asset store and return it; on failure or a non-ok
response run the terminal fallbacks of lines 197-206. -/
def handleAppRequest (net : Network) (cs : CacheStorage) (req : Request) : HandlerResult :=
  match cachesMatch cs req.url with
  | some cachedResponse => ⟨some cachedResponse, cs, []⟩
  | none =>
    match net req.url with
    | .ok networkResponse =>
      if networkResponse.ok then
        ⟨some networkResponse, cachesPut cs CACHE_NAME req.url networkResponse, [req.url]⟩
      else
        appFallback cs req [req.url]
    | .error _ => appFallback cs req [req.url]

/-- Lines 98-101: the default strategy — network first, and on rejection the
bare `caches.match(request)`, whose result may be `undefined`. -/
def defaultHandler (net : Network) (cs : CacheStorage) (req : Request) : HandlerResult :=
  match net req.url with
  | .ok networkResponse => ⟨some networkResponse, cs, [req.url]⟩
  | .error _ => ⟨cachesMatch cs req.url, cs, [req.url]⟩

/-- The request classes the `fetch` listener distinguishes. -/
inductive RequestClass
  | ignored
  | api
  | navigation
  | asset
  | other
deriving DecidableEq

/-- Line 76: chrome/moz extension schemes. -/
def isExtensionScheme (req : Request) : Bool :=
  req.protocol == "chrome-extension:" || req.protocol == "moz-extension:"

/-- The classification performed by the `fetch` listener (lines 71-102), in
its textual order: extension schemes, then the API hostname, then navigation
mode or an HTML accept-hint, then the page origin, then the default. -/
def classify (locOrigin : String) (req : Request) : RequestClass :=
  if isExtensionScheme req then .ignored
  else if req.hostname = "jsonplaceholder.typicode.com" then .api
  else if req.mode = "navigate" ∨ acceptIncludesHtml req then .navigation
  else if req.origin = locOrigin then .asset
  else .other

/-- The `fetch` listener (lines 71-102): route the request to the handler its
class selects; an ignored request is not responded to at all. -/
def fetchDispatch (locOrigin : String) (net : Network) (cs : CacheStorage)
    (req : Request) : Option HandlerResult :=
  match classify locOrigin req with
  | .ignored => none
  | .api => some (handleApiRequest net cs req)
  | .navigation => some (handleNavigationRequest net cs req)
  | .asset => some (handleAppRequest net cs req)
  | .other => some (defaultHandler net cs req)

/-- The fetch phase of `cache.addAll(urls)`: every URL must fetch with an ok
response, otherwise the whole call rejects and stores nothing. -/
def fetchAllOk (net : Network) : List String → Except Unit (List (String × Response))
  | [] => .ok []
  | u :: rest =>
    match net u with
    | .ok r =>
      if r.ok then (fetchAllOk net rest).map (fun l => (u, r) :: l)
      else .error ()
    | .error _ => .error ()

/-- `caches.open(name).then(cache => cache.addAll(urls))`: on success every
fetched pair is stored in the named store; on failure nothing is stored. -/
def addAll (net : Network) (cs : CacheStorage) (name : String) (urls : List String) :
    Except Unit CacheStorage :=
  (fetchAllOk net urls).map (fun l => l.foldl (fun acc p => cachesPut acc name p.1 p.2) cs)

/-- Outcome of the `install` listener: whether the promise handed to
`event.waitUntil` rejected (the host's install-failed condition), whether
`self.skipWaiting()` ran, and the cache registry afterwards. -/
structure InstallResult where
  waitUntilRejected : Bool
  skipWaitingCalled : Bool
  caches : CacheStorage
deriving DecidableEq

/-- The `install` listener (lines 25-47): `Promise.all` of the mandatory
asset `addAll` and the API `addAll` whose rejection is absorbed by its own
`.catch`; when the `Promise.all` resolves, `self.skipWaiting()` runs; the
final `.catch` logs and absorbs any rejection, so the promise handed to
`event.waitUntil` always resolves. -/
def installEvent (net : Network) (cs : CacheStorage) : InstallResult :=
  let apiAttempt : CacheStorage → CacheStorage := fun c =>
    match addAll net c API_CACHE_NAME API_ENDPOINTS with
    | .ok c2 => c2
    | .error _ => c
  match addAll net cs CACHE_NAME urlsToCache with
  | .ok cs1 => ⟨false, true, apiAttempt cs1⟩
  | .error _ => ⟨false, false, apiAttempt cs⟩

/-- The filter of the `activate` listener (lines 55-57): the store names that
get deleted. -/
def activateDeleted (cacheNames : List String) : List String :=
  cacheNames.filter (fun n => n != CACHE_NAME && n != API_CACHE_NAME)

/-- The reconciliation of the `activate` listener (lines 49-69): enumerate
the store names and delete every store whose name is neither current token. -/
def activateEvent (cs : CacheStorage) : CacheStorage :=
  (activateDeleted (cs.map Prod.fst)).foldl cachesDelete cs

/-- One iteration of the `doBackgroundSync` loop (lines 222-232): fetch the
endpoint inside its own try/catch; only a fetched ok response is written to
the API store, and a rejection leaves the registry untouched. -/
def syncStep (net : Network) (cs : CacheStorage) (url : String) : CacheStorage :=
  match net url with
  | .ok response => if response.ok then cachesPut cs API_CACHE_NAME url response else cs
  | .error _ => cs

/-- The `doBackgroundSync` loop over a list of endpoint URLs. -/
def syncRequests (net : Network) (urls : List String) (cs : CacheStorage) : CacheStorage :=
  urls.foldl (syncStep net) cs

/-- `doBackgroundSync` (lines 217-236): refresh every fixed API endpoint. -/
def doBackgroundSync (net : Network) (cs : CacheStorage) : CacheStorage :=
  syncRequests net API_ENDPOINTS cs

/-! Concrete fixtures used to instantiate the theorems below. -/

/-- A network on which every fetch rejects. -/
def failNet : Network := fun _ => .error ()

/-- A cached HTML page snapshot. -/
def htmlSnapshot (s : String) : Response :=
  ⟨200, "OK", [("Content-Type", "text/html")], s⟩

def indexSnapshot : Response := htmlSnapshot "index"

def offlineSnapshot : Response := htmlSnapshot "offline page"

def aboutSnapshot : Response := htmlSnapshot "about"

/-- A navigation request for a same-origin page. -/
def navRequest (u : String) : Request :=
  ⟨u, "https:", "app.example", "https://app.example", "navigate",
   some "text/html,application/xhtml+xml"⟩

/-- A same-origin asset request with the given accept header. -/
def assetRequest (u : String) (accept : Option String) : Request :=
  ⟨u, "https:", "app.example", "https://app.example", "no-cors", accept⟩

/-- A request to the fixed external API host. -/
def apiRequest : Request :=
  ⟨"https://jsonplaceholder.typicode.com/posts?_limit=5", "https:",
   "jsonplaceholder.typicode.com", "https://jsonplaceholder.typicode.com",
   "cors", some "application/json"⟩

/-- An asset store holding the index, offline and about pages. -/
def csFull : CacheStorage :=
  [(CACHE_NAME,
    [("./index.html", indexSnapshot), ("./offline.html", offlineSnapshot),
     ("./about.html", aboutSnapshot)])]

/-- An asset store holding the index page but no offline page. -/
def csIndexOnly : CacheStorage :=
  [(CACHE_NAME, [("./index.html", indexSnapshot)])]

/-! The claims. -/

/-- Claim C1, counterexample: on a network where every fetch rejects, the
mandatory asset `addAll` fails, yet the promise handed to `event.waitUntil`
resolves — the final `.catch` of lines 43-45 absorbs the error, so no
install-failed condition reaches the host. -/
theorem install_failure_not_signaled_cex :
    addAll failNet [] CACHE_NAME urlsToCache = .error () ∧
    (installEvent failNet []).waitUntilRejected = false ∧
    (installEvent failNet []).skipWaitingCalled = false :=
  ⟨rfl, rfl, rfl⟩

/-- Claim C1 as amended: when populating the asset store fails during
install, the install outcome is not aborted — the error is caught and only
logged, so the promise handed to `event.waitUntil` resolves — but readiness
to replace the previous instance (`self.skipWaiting()`) is not signaled. -/
theorem install_failure_swallowed (net : Network) (cs : CacheStorage)
    (h : addAll net cs CACHE_NAME urlsToCache = .error ()) :
    (installEvent net cs).waitUntilRejected = false ∧
    (installEvent net cs).skipWaitingCalled = false := by
  simp [installEvent, h]

theorem install_failure_swallowed_witness :
    (installEvent failNet []).waitUntilRejected = false ∧
    (installEvent failNet []).skipWaitingCalled = false :=
  install_failure_swallowed failNet [] rfl

/-- Claim C2: for a request to the fixed API hostname whose network call
throws or yields a non-ok response, the handler serves the cached snapshot
when one matches, and otherwise the synthesized response whose body is the
empty JSON array with a Content-Type of application/json — never a hard
failure. -/
theorem api_failure_resolves (net : Network) (cs : CacheStorage) (req : Request)
    (hhost : req.hostname = "jsonplaceholder.typicode.com")
    (hfail : net req.url = .error () ∨ ∃ r, net req.url = .ok r ∧ r.ok = false) :
    (∀ c, cachesMatch cs req.url = some c →
      (handleApiRequest net cs req).response = some c) ∧
    (cachesMatch cs req.url = none →
      (handleApiRequest net cs req).response = some emptyJsonResponse) ∧
    (handleApiRequest net cs req).response.isSome = true ∧
    emptyJsonResponse.body = "[]" ∧
    emptyJsonResponse.headers = [("Content-Type", "application/json")] := by
  have key : handleApiRequest net cs req = apiFallback cs req [req.url] := by
    rcases hfail with h | ⟨r, h, hok⟩
    · simp [handleApiRequest, h]
    · simp [handleApiRequest, h, hok]
  refine ⟨?_, ?_, ?_, rfl, rfl⟩
  · intro c hc
    rw [key]
    simp [apiFallback, hc]
  · intro hnone
    rw [key]
    simp [apiFallback, hnone]
  · rw [key]
    unfold apiFallback
    cases cachesMatch cs req.url <;> rfl

theorem api_failure_resolves_witness :
    (∀ c, cachesMatch [] apiRequest.url = some c →
      (handleApiRequest failNet [] apiRequest).response = some c) ∧
    (cachesMatch [] apiRequest.url = none →
      (handleApiRequest failNet [] apiRequest).response = some emptyJsonResponse) ∧
    (handleApiRequest failNet [] apiRequest).response.isSome = true ∧
    emptyJsonResponse.body = "[]" ∧
    emptyJsonResponse.headers = [("Content-Type", "application/json")] :=
  api_failure_resolves failNet [] apiRequest rfl (Or.inl rfl)

/-- Claim C4: for every navigation request whose exact entry is in the
cache, the cached snapshot is returned and no network call is made. -/
theorem navigation_cache_hit_no_fetch (net : Network) (cs : CacheStorage)
    (req : Request) (r : Response) (h : cachesMatch cs req.url = some r) :
    (handleNavigationRequest net cs req).response = some r ∧
    (handleNavigationRequest net cs req).fetches = [] := by
  constructor <;> simp [handleNavigationRequest, h]

theorem navigation_cache_hit_no_fetch_witness :
    (handleNavigationRequest failNet csFull (navRequest "./about.html")).response =
      some aboutSnapshot ∧
    (handleNavigationRequest failNet csFull (navRequest "./about.html")).fetches = [] :=
  navigation_cache_hit_no_fetch failNet csFull (navRequest "./about.html") aboutSnapshot
    (by decide)

/-- Claim C5: a navigation request with a cache miss and a failing network
call falls back to the cached offline page, and when that entry is absent to
the cached index page. -/
theorem navigation_offline_then_index (net : Network) (cs : CacheStorage) (req : Request)
    (hmiss : cachesMatch cs req.url = none) (hnet : net req.url = .error ()) :
    (∀ fb, cachesMatch cs "./offline.html" = some fb →
      (handleNavigationRequest net cs req).response = some fb) ∧
    (cachesMatch cs "./offline.html" = none →
      ∀ idx, cachesMatch cs "./index.html" = some idx →
        (handleNavigationRequest net cs req).response = some idx) := by
  constructor
  · intro fb hfb
    simp [handleNavigationRequest, hmiss, hnet, navigationFallback, hfb]
  · intro hnone idx hidx
    simp [handleNavigationRequest, hmiss, hnet, navigationFallback, hnone, hidx]

theorem navigation_offline_then_index_witness :
    (∀ fb, cachesMatch csIndexOnly "./offline.html" = some fb →
      (handleNavigationRequest failNet csIndexOnly (navRequest "./missing.html")).response =
        some fb) ∧
    (cachesMatch csIndexOnly "./offline.html" = none →
      ∀ idx, cachesMatch csIndexOnly "./index.html" = some idx →
        (handleNavigationRequest failNet csIndexOnly (navRequest "./missing.html")).response =
          some idx) :=
  navigation_offline_then_index failNet csIndexOnly (navRequest "./missing.html")
    (by decide) rfl

/-- Claim C8: a same-origin asset request with a cache miss, a failing
network call and a non-HTML accept-hint resolves to the synthesized 503
response with the fixed explanatory body. -/
theorem asset_terminal_503 (net : Network) (cs : CacheStorage) (req : Request)
    (hmiss : cachesMatch cs req.url = none) (hnet : net req.url = .error ())
    (hhtml : acceptIncludesHtml req = false) :
    (handleAppRequest net cs req).response = some offlineResponse503 ∧
    offlineResponse503.status = 503 ∧
    offlineResponse503.statusText = "Service Unavailable" ∧
    offlineResponse503.body = "Offline - Service worker failed to fetch content" := by
  refine ⟨?_, rfl, rfl, rfl⟩
  simp [handleAppRequest, hmiss, hnet, appFallback, hhtml]

theorem asset_terminal_503_witness :
    (handleAppRequest failNet csFull (assetRequest "./data.bin" none)).response =
      some offlineResponse503 ∧
    offlineResponse503.status = 503 ∧
    offlineResponse503.statusText = "Service Unavailable" ∧
    offlineResponse503.body = "Offline - Service worker failed to fetch content" :=
  asset_terminal_503 failNet csFull (assetRequest "./data.bin" none) (by decide) rfl rfl

/-- Claim C10: on the API handler's failure path — the network call throws
or resolves with a non-ok status — no store write of any kind occurs: the
cache registry afterwards is exactly the one before. -/
theorem api_failure_frame (net : Network) (cs : CacheStorage) (req : Request)
    (hfail : net req.url = .error () ∨ ∃ r, net req.url = .ok r ∧ r.ok = false) :
    (handleApiRequest net cs req).caches = cs := by
  have hfb : (apiFallback cs req [req.url]).caches = cs := by
    unfold apiFallback
    cases cachesMatch cs req.url <;> rfl
  rcases hfail with h | ⟨r, h, hok⟩
  · simp [handleApiRequest, h, hfb]
  · simp [handleApiRequest, h, hok, hfb]

theorem api_failure_frame_witness :
    (handleApiRequest failNet csFull apiRequest).caches = csFull :=
  api_failure_frame failNet csFull apiRequest (Or.inl rfl)

/-- A same-origin asset request carrying an HTML accept-hint. -/
def htmlAssetRequest : Request :=
  ⟨"./partial.html", "https:", "app.example", "https://app.example", "no-cors",
   some "text/html"⟩

/-- Claim C3, divergence: with a cache miss, a failing network call and an
HTML accept-hint, when the offline page is absent but the index page is
cached, `handleAppRequest` resolves to no response at all — line 200's
`caches.match('./offline.html') || caches.match('./index.html')`
short-circuits on the first promise, which is truthy, so the index fallback
of the navigation strategy's terminal behaviour is never reached. -/
theorem asset_html_fallback_divergence :
    cachesMatch csIndexOnly "./offline.html" = none ∧
    cachesMatch csIndexOnly "./index.html" = some indexSnapshot ∧
    cachesMatch csIndexOnly htmlAssetRequest.url = none ∧
    failNet htmlAssetRequest.url = .error () ∧
    acceptIncludesHtml htmlAssetRequest = true ∧
    (handleAppRequest failNet csIndexOnly htmlAssetRequest).response = none ∧
    (handleNavigationRequest failNet csIndexOnly htmlAssetRequest).response =
      some indexSnapshot :=
  ⟨rfl, by decide, rfl, rfl, by decide, by decide, by decide⟩

/-- Membership in one `caches.delete`. -/
theorem mem_cachesDelete (cs : CacheStorage) (name : String) (p : String × Cache) :
    p ∈ cachesDelete cs name ↔ p ∈ cs ∧ p.1 ≠ name := by
  simp [cachesDelete, List.mem_filter, bne_iff_ne]

/-- Membership after a sequence of `caches.delete` calls. -/
theorem mem_foldl_cachesDelete (names : List String) (cs : CacheStorage)
    (p : String × Cache) :
    p ∈ names.foldl cachesDelete cs ↔ p ∈ cs ∧ p.1 ∉ names := by
  induction names generalizing cs with
  | nil => simp
  | cons n rest ih =>
    simp only [List.foldl_cons, ih, mem_cachesDelete, List.mem_cons]
    tauto

/-- Claim C6: activation-time reconciliation deletes exactly the stores whose
name is neither current version token, and every store carrying a current
token survives with its contents untouched. -/
theorem activate_reconciliation (cs : CacheStorage) :
    (∀ n, n ∈ activateDeleted (cs.map Prod.fst) ↔
      n ∈ cs.map Prod.fst ∧ n ≠ CACHE_NAME ∧ n ≠ API_CACHE_NAME) ∧
    (∀ p, p ∈ activateEvent cs ↔
      p ∈ cs ∧ (p.1 = CACHE_NAME ∨ p.1 = API_CACHE_NAME)) := by
  have hdel : ∀ n, n ∈ activateDeleted (cs.map Prod.fst) ↔
      n ∈ cs.map Prod.fst ∧ n ≠ CACHE_NAME ∧ n ≠ API_CACHE_NAME := by
    intro n
    simp [activateDeleted, List.mem_filter, bne_iff_ne]
  refine ⟨hdel, fun p => ?_⟩
  rw [activateEvent, mem_foldl_cachesDelete, hdel p.1]
  constructor
  · rintro ⟨hp, hnd⟩
    refine ⟨hp, ?_⟩
    by_contra hne
    push_neg at hne
    exact hnd ⟨List.mem_map_of_mem Prod.fst hp, hne.1, hne.2⟩
  · rintro ⟨hp, hcur⟩
    refine ⟨hp, fun hnd => ?_⟩
    rcases hcur with h | h
    · exact hnd.2.1 h
    · exact hnd.2.2 h

/-- The version-upgrade example evaluated on the embedded filter: of four
stores, exactly the two stale ones are selected for deletion. -/
theorem activateDeleted_example :
    activateDeleted
      ["zaq_myapp_v4", "zaq_api_cache_v2", "zaq_myapp_v5", "zaq_api_cache_v3"] =
      ["zaq_myapp_v4", "zaq_api_cache_v2"] := by
  decide

/-- Claim C7: the fetch listener's classification follows the stated
precedence with the first match winning, and each class is routed to its
strategy: extension schemes are not intercepted, the API hostname selects the
external-API handler, navigation mode or an HTML accept-hint selects the
navigation handler, the page origin selects the asset handler, and anything
else the default handler. -/
theorem fetch_classification (locOrigin : String) (net : Network) (cs : CacheStorage)
    (req : Request) :
    (classify locOrigin req = .ignored ↔ isExtensionScheme req = true) ∧
    (classify locOrigin req = .api ↔
      isExtensionScheme req = false ∧
        req.hostname = "jsonplaceholder.typicode.com") ∧
    (classify locOrigin req = .navigation ↔
      isExtensionScheme req = false ∧
        req.hostname ≠ "jsonplaceholder.typicode.com" ∧
        (req.mode = "navigate" ∨ acceptIncludesHtml req = true)) ∧
    (classify locOrigin req = .asset ↔
      isExtensionScheme req = false ∧
        req.hostname ≠ "jsonplaceholder.typicode.com" ∧
        ¬(req.mode = "navigate" ∨ acceptIncludesHtml req = true) ∧
        req.origin = locOrigin) ∧
    (classify locOrigin req = .other ↔
      isExtensionScheme req = false ∧
        req.hostname ≠ "jsonplaceholder.typicode.com" ∧
        ¬(req.mode = "navigate" ∨ acceptIncludesHtml req = true) ∧
        req.origin ≠ locOrigin) ∧
    (classify locOrigin req = .ignored → fetchDispatch locOrigin net cs req = none) ∧
    (classify locOrigin req = .api →
      fetchDispatch locOrigin net cs req = some (handleApiRequest net cs req)) ∧
    (classify locOrigin req = .navigation →
      fetchDispatch locOrigin net cs req = some (handleNavigationRequest net cs req)) ∧
    (classify locOrigin req = .asset →
      fetchDispatch locOrigin net cs req = some (handleAppRequest net cs req)) ∧
    (classify locOrigin req = .other →
      fetchDispatch locOrigin net cs req = some (defaultHandler net cs req)) := by
  unfold fetchDispatch classify
  split_ifs with h1 h2 h3 h4 <;> simp_all

/-- Lookup in a store after a `put` into that store. -/
theorem cachesOpen_cachesPut (cs : CacheStorage) (name k : String) (v : Response) :
    cachesOpen (cachesPut cs name k v) name = cacheInsert (cachesOpen cs name) k v := by
  induction cs with
  | nil => simp [cachesPut, cachesOpen]
  | cons hd rest ih =>
    obtain ⟨n, c⟩ := hd
    by_cases h : name = n
    · subst h
      simp [cachesPut, cachesOpen]
    · simp [cachesPut, cachesOpen, h, ih]

theorem cacheLookup_insert_self (c : Cache) (k : String) (v : Response) :
    cacheLookup (cacheInsert c k v) k = some v := by
  simp [cacheInsert, cacheLookup]

theorem cacheLookup_insert_ne (c : Cache) (k key : String) (v : Response)
    (h : key ≠ k) :
    cacheLookup (cacheInsert c k v) key = cacheLookup c key := by
  simp [cacheInsert, cacheLookup, h]

/-- Exact-match lookup in the API store. -/
def apiStoreLookup (cs : CacheStorage) (key : String) : Option Response :=
  cacheLookup (cachesOpen cs API_CACHE_NAME) key

/-- The sync loop never touches the entry of an endpoint whose fetch
rejects. -/
theorem syncRequests_error_key (net : Network) (urls : List String) (cs : CacheStorage)
    (e : String) (he : net e = .error ()) :
    apiStoreLookup (syncRequests net urls cs) e = apiStoreLookup cs e := by
  induction urls generalizing cs with
  | nil => rfl
  | cons u rest ih =>
    have hstep : apiStoreLookup (syncStep net cs u) e = apiStoreLookup cs e := by
      unfold syncStep
      cases hu : net u with
      | error _ => rfl
      | ok r =>
        by_cases hok : r.ok
        · have hne : e ≠ u := by
            intro hequ
            rw [hequ, hu] at he
            exact Except.noConfusion he
          simp [hok, apiStoreLookup, cachesOpen_cachesPut,
            cacheLookup_insert_ne _ _ _ _ hne]
        · simp [hok]
    calc apiStoreLookup (syncRequests net (u :: rest) cs) e
        = apiStoreLookup (syncRequests net rest (syncStep net cs u)) e := rfl
      _ = apiStoreLookup (syncStep net cs u) e := ih _
      _ = apiStoreLookup cs e := hstep

/-- Once the store holds the value the network keeps answering for an
endpoint, the rest of the sync loop keeps it there. -/
theorem syncRequests_keeps_ok (net : Network) (urls : List String) (cs : CacheStorage)
    (e : String) (r : Response) (hr : net e = .ok r)
    (hprev : apiStoreLookup cs e = some r) :
    apiStoreLookup (syncRequests net urls cs) e = some r := by
  induction urls generalizing cs with
  | nil => exact hprev
  | cons u rest ih =>
    show apiStoreLookup (syncRequests net rest (syncStep net cs u)) e = some r
    apply ih
    unfold syncStep
    cases hu : net u with
    | error _ => exact hprev
    | ok ru =>
      by_cases hok : ru.ok
      · by_cases hequ : e = u
        · subst hequ
          rw [hu] at hr
          have hre : ru = r := Except.ok.inj hr
          subst hre
          simp [hok, apiStoreLookup, cachesOpen_cachesPut, cacheLookup_insert_self]
        · simpa [hok, apiStoreLookup, cachesOpen_cachesPut,
            cacheLookup_insert_ne _ _ _ _ hequ] using hprev
      · simpa [hok] using hprev

/-- Running the sync loop over a list containing an endpoint whose fetch
succeeds with an ok response writes that response into the API store. -/
theorem syncRequests_sets_member (net : Network) (urls : List String)
    (cs : CacheStorage) (e : String) (r : Response)
    (he : e ∈ urls) (hr : net e = .ok r) (hok : r.ok = true) :
    apiStoreLookup (syncRequests net urls cs) e = some r := by
  induction urls generalizing cs with
  | nil => cases he
  | cons u rest ih =>
    rcases List.mem_cons.mp he with hequ | hmem
    · subst hequ
      show apiStoreLookup (syncRequests net rest (syncStep net cs e)) e = some r
      apply syncRequests_keeps_ok net rest _ e r hr
      simp [syncStep, hr, hok, apiStoreLookup, cachesOpen_cachesPut,
        cacheLookup_insert_self]
    · exact ih _ hmem

/-- Claim C9: in the background-sync loop each endpoint's failure is
isolated — an endpoint whose fetch succeeds with an ok response has its API
store entry overwritten with the new response, an endpoint whose fetch
throws keeps its prior entry, and the loop itself (of which
`doBackgroundSync` is the instance at the fixed endpoint list) is a total
function: no exception escapes it. -/
theorem background_sync_isolation (net : Network) (cs : CacheStorage)
    (urls : List String) (e1 e2 : String) (r : Response)
    (h1 : e1 ∈ urls) (hr : net e1 = .ok r) (hok : r.ok = true)
    (h2 : net e2 = .error ()) :
    apiStoreLookup (syncRequests net urls cs) e1 = some r ∧
    apiStoreLookup (syncRequests net urls cs) e2 = apiStoreLookup cs e2 ∧
    doBackgroundSync net cs = syncRequests net API_ENDPOINTS cs :=
  ⟨syncRequests_sets_member net urls cs e1 r h1 hr hok,
   syncRequests_error_key net urls cs e2 h2, rfl⟩

/-- The fixed posts endpoint. -/
def postsUrl : String := "https://jsonplaceholder.typicode.com/posts?_limit=5"

/-- A second endpoint, present in the store from an earlier sync. -/
def otherUrl : String := "https://jsonplaceholder.typicode.com/users"

def postsResponse : Response :=
  ⟨200, "OK", [("Content-Type", "application/json")], "fresh posts"⟩

def staleResponse : Response :=
  ⟨200, "OK", [("Content-Type", "application/json")], "stale users"⟩

/-- A network where the posts endpoint succeeds and everything else
rejects. -/
def syncNet : Network := fun u => if u = postsUrl then .ok postsResponse else .error ()

/-- An API store holding a prior entry for the second endpoint. -/
def syncStorage : CacheStorage := [(API_CACHE_NAME, [(otherUrl, staleResponse)])]

theorem background_sync_isolation_witness :
    apiStoreLookup (syncRequests syncNet [postsUrl, otherUrl] syncStorage) postsUrl =
      some postsResponse ∧
    apiStoreLookup (syncRequests syncNet [postsUrl, otherUrl] syncStorage) otherUrl =
      apiStoreLookup syncStorage otherUrl ∧
    doBackgroundSync syncNet syncStorage = syncRequests syncNet API_ENDPOINTS syncStorage :=
  background_sync_isolation syncNet syncStorage [postsUrl, otherUrl] postsUrl otherUrl
    postsResponse (List.mem_cons_self postsUrl [otherUrl]) rfl (by decide) rfl

end Sw
